import Mathlib

/-!
Shallow embedding of the `graphql` Go package (spacelift-io/graphql):
the client's single-operation executor `Client.do` (src/graphql.go),
its error aggregation over the GraphQL `errors` array, and the
`OptionError` wrapper (options file).

External collaborators — the query compiler (`constructQuery` /
`constructMutation`, from an internal package), the JSON encoder's
possible failure, `http.NewRequestWithContext`'s possible failure, the
HTTP transport (`httpClient.Do`), the envelope decoder
(`json.Decoder.Decode`), and the response materializer
(`jsonutil.UnmarshalGraphQL`) — are passed in as an explicit
environment, so theorems quantify over all of their behaviours.
Target mutation is modelled by explicit state passing, and the
executor additionally records the payload handed to the encoder and
the list of requests handed to the transport, so that observational
claims (payload shape, at-most-one send) are statable.
-/

/-- JSON values, used for variable bindings, raw `data` payloads and
request bodies. -/
inductive Json where
  | null : Json
  | bool (b : Bool) : Json
  | num (n : Int) : Json
  | str (s : String) : Json
  | arr (elems : List Json) : Json
  | obj (fields : List (String × Json)) : Json

/-- Member lookup in a JSON object; `none` when the value is not an
object or the key is absent. -/
def Json.lookup : Json → String → Option Json
  | Json.obj fields, k => (fields.find? (fun f => f.1 == k)).map (fun f => f.2)
  | _, _ => none

/-- Caller-supplied variable bindings (`map[string]interface{}` in the
source); the empty list models both a nil and an empty map. -/
abbrev Variables : Type := List (String × Json)

/-- A location in a GraphQL error (source: the anonymous struct inside
`GraphQLErrors`). -/
structure GraphQLErrorLocation where
  Line : Int
  Column : Int

/-- One element of the `errors` array in a response (source: element
type of `GraphQLErrors` in src/graphql.go). -/
structure GraphQLError where
  Message : String
  Locations : List GraphQLErrorLocation
  Path : List Json
  Extensions : List (String × Json)

/-- `GraphQLErrors` represents the `errors` array in a response
(source: `type GraphQLErrors []struct{...}` in src/graphql.go). -/
abbrev GraphQLErrors : Type := List GraphQLError

/-- The `Error()` method of `GraphQLErrors` (src/graphql.go line 133):
`return e[0].Message`. Indexing `e[0]` panics in Go when the slice is
empty; that out-of-bounds case is modelled as `none`. -/
def GraphQLErrors.Error (e : GraphQLErrors) : Option String :=
  match e with
  | [] => none
  | h :: _ => some h.Message

/-- `OptionError` represents an error modifying a request (options
file). The wrapped Go `error` is modelled by its message string. -/
structure OptionError where
  Err : String

/-- `OptionError.Error()`: `fmt.Sprintf("request option error: %v", e.Err)`. -/
def OptionError.ErrorMessage (e : OptionError) : String :=
  "request option error: " ++ e.Err

/-- `OptionError.Unwrap()`: returns the wrapped error. -/
def OptionError.Unwrap (e : OptionError) : String :=
  e.Err

/-- An outgoing HTTP request, as far as `Client.do` constructs and the
request options may observe or rewrite it. -/
structure Request where
  Method : String
  URL : String
  Body : Json
  Header : List (String × String)

/-- A request option: may rewrite the in-flight request or fail
(Go: `type RequestOption func(*http.Request) error`, mutating the
request through the pointer; signature evident from the call site
`opt(req)` in src/graphql.go and the request-option interface in the
design). -/
abbrev RequestOption : Type := Request → Except String Request

/-- The transport's response, as far as `Client.do` inspects it:
status code, status text, and the body bytes (read either whole for
the non-200 diagnostic or by the envelope decoder). -/
structure HttpResponse where
  StatusCode : Int
  Status : String
  Body : String

/-- The response envelope `Client.do` decodes into (src/graphql.go
lines 94-97): `Data *json.RawMessage; Errors GraphQLErrors`. A JSON
`null` or absent `data` member leaves the pointer nil, modelled as
`none`. -/
structure ResponseEnvelope where
  Data : Option Json
  Errors : GraphQLErrors

/-- The request payload struct built in `Client.do` (lines 57-63):
`Query string; Variables map[string]any` with tags
`json:"query"` and `json:"variables,omitempty"`. -/
structure Payload where
  Query : String
  Variables : Variables

/-- Models `encoding/json` marshalling of `Payload` under its field
tags: a `"query"` string member always, and a `"variables"` member
only when the map is non-empty (the `omitempty` option drops a map of
length zero, i.e. both nil and empty maps). -/
def encodePayload (p : Payload) : Json :=
  Json.obj (("query", Json.str p.Query) ::
    (if p.Variables.isEmpty then [] else [("variables", Json.obj p.Variables)]))

/-- The errors `Client.do` can return, one constructor per `return`
site carrying a non-nil error (src/graphql.go lines 66-111). -/
inductive DoError where
  | encodeErr (msg : String) : DoError
  | requestErr (msg : String) : DoError
  | optionErr (e : OptionError) : DoError
  | transportErr (msg : String) : DoError
  | statusErr (status : String) (body : String) : DoError
  | envelopeDecodeErr (msg : String) : DoError
  | unmarshalErr (msg : String) : DoError
  | gqlErrors (errs : GraphQLErrors) : DoError

/-- The error kinds that arise strictly before any materialization
into the target begins: envelope encoding, request construction, a
failing request option, transport failure, non-200 status, and
envelope decode failure. -/
def DoError.preMaterialization : DoError → Bool
  | DoError.unmarshalErr _ => false
  | DoError.gqlErrors _ => false
  | _ => true

/-- The operation kind (src/graphql.go `operationType`). -/
inductive operationType where
  | queryOperation : operationType
  | mutationOperation : operationType

/-- The client's own fields that `Client.do` reads: the server URL and
the client-level request options (the HTTP client itself lives in the
environment as `transport`). -/
structure Client where
  url : String
  requestOptions : List RequestOption

/-- The external collaborators of `Client.do`, over a target type `V`:
the query compiler (internal package), abstract failure of the JSON
encoder and of `http.NewRequestWithContext`, the HTTP transport, the
envelope decoder, and `jsonutil.UnmarshalGraphQL`. The materializer
returns an optional error together with the (possibly partially
written) target. -/
structure DoEnv (V : Type) where
  constructQuery : V → Variables → String
  constructMutation : V → Variables → String
  encodeFail : Payload → Option String
  newRequestFail : String → Option String
  transport : Request → Except String HttpResponse
  decodeEnvelope : String → Except String ResponseEnvelope
  unmarshalGraphQL : Json → V → Option String × V

/-- The query document compiled for the operation (src/graphql.go
lines 50-56): `constructQuery` for queries, `constructMutation` for
mutations. -/
def opQuery {V : Type} (env : DoEnv V) (op : operationType) (v : V)
    (vars : Variables) : String :=
  match op with
  | operationType.queryOperation => env.constructQuery v vars
  | operationType.mutationOperation => env.constructMutation v vars

/-- The payload struct value built in `Client.do` (lines 57-63). -/
def doPayload {V : Type} (env : DoEnv V) (op : operationType) (v : V)
    (vars : Variables) : Payload :=
  { Query := opQuery env op v vars, Variables := vars }

/-- The request as built before any option runs (lines 69-73): POST to
the client URL with the encoded payload as body and the
`Content-Type: application/json` header set. -/
def initialRequest (url : String) (body : Json) : Request :=
  { Method := "POST", URL := url, Body := body
    Header := [("Content-Type", "application/json")] }

/-- The option-application loop (lines 79-83): each option in turn may
rewrite the request; the first failure aborts with its error. -/
def applyOpts : List RequestOption → Request → Except String Request
  | [], req => Except.ok req
  | o :: os, req =>
    match o req with
    | Except.error e => Except.error e
    | Except.ok req2 => applyOpts os req2

/-- The request fed to the option loop for a given call: the initial
POST request carrying the encoded payload. -/
def doInitialRequest {V : Type} (env : DoEnv V) (c : Client) (op : operationType)
    (v : V) (vars : Variables) : Request :=
  initialRequest c.url (encodePayload (doPayload env op v vars))

/-- The tail of `Client.do` after a decoded envelope (lines 103-113):
if `Data` is non-nil, materialize it into the target, returning the
materialization error on failure; then return the `Errors` slice as
the error if non-empty, else succeed. Returns the result together
with the final target state. -/
def processEnvelope {V : Type} (env : DoEnv V) (out : ResponseEnvelope)
    (v : V) : Except DoError Unit × V :=
  match out.Data with
  | some rawData =>
    match env.unmarshalGraphQL rawData v with
    | (some e, v2) => (Except.error (DoError.unmarshalErr e), v2)
    | (none, v2) =>
      if out.Errors.length > 0 then (Except.error (DoError.gqlErrors out.Errors), v2)
      else (Except.ok (), v2)
  | none =>
    if out.Errors.length > 0 then (Except.error (DoError.gqlErrors out.Errors), v)
    else (Except.ok (), v)

/-- The observable outcome of one `Client.do` call: the returned
result, the final state of the target, the payload handed to the JSON
encoder, and the requests handed to the transport (in order). -/
structure DoResult (V : Type) where
  result : Except DoError Unit
  target : V
  payload : Payload
  transportCalls : List Request

/-- `Client.do` (src/graphql.go lines 49-114), the single-operation
executor shared by `Query` and `Mutate`: compile the document, build
and encode the `{query, variables}` payload, construct the POST
request, apply client-level then per-call options in order, send,
require status 200, decode the envelope, materialize `Data` if
present, and surface `Errors` if non-empty. (`do` is a reserved word
in Lean, hence the name `doOp`.) -/
def Client.doOp {V : Type} (env : DoEnv V) (c : Client) (op : operationType)
    (v : V) (vars : Variables) (opts : List RequestOption) : DoResult V :=
  match env.encodeFail (doPayload env op v vars) with
  | some e => ⟨Except.error (DoError.encodeErr e), v, doPayload env op v vars, []⟩
  | none =>
    match env.newRequestFail c.url with
    | some e => ⟨Except.error (DoError.requestErr e), v, doPayload env op v vars, []⟩
    | none =>
      match applyOpts (c.requestOptions ++ opts) (doInitialRequest env c op v vars) with
      | Except.error e => ⟨Except.error (DoError.optionErr ⟨e⟩), v, doPayload env op v vars, []⟩
      | Except.ok req2 =>
        match env.transport req2 with
        | Except.error e => ⟨Except.error (DoError.transportErr e), v, doPayload env op v vars, [req2]⟩
        | Except.ok resp =>
          if resp.StatusCode ≠ 200 then
            ⟨Except.error (DoError.statusErr resp.Status resp.Body), v, doPayload env op v vars, [req2]⟩
          else
            match env.decodeEnvelope resp.Body with
            | Except.error e => ⟨Except.error (DoError.envelopeDecodeErr e), v, doPayload env op v vars, [req2]⟩
            | Except.ok out =>
              ⟨(processEnvelope env out v).1, (processEnvelope env out v).2, doPayload env op v vars, [req2]⟩

/-- `Client.Query` (src/graphql.go line 37): execute a query operation. -/
def Client.Query {V : Type} (env : DoEnv V) (c : Client) (q : V)
    (vars : Variables) (opts : List RequestOption) : DoResult V :=
  Client.doOp env c operationType.queryOperation q vars opts

/-- `Client.Mutate` (src/graphql.go line 44): execute a mutation operation. -/
def Client.Mutate {V : Type} (env : DoEnv V) (c : Client) (m : V)
    (vars : Variables) (opts : List RequestOption) : DoResult V :=
  Client.doOp env c operationType.mutationOperation m vars opts

/-! Concrete instances used to exercise the theorems below. -/

/-- A sample protocol error. -/
def errBoom : GraphQLError :=
  { Message := "boom", Locations := [], Path := [], Extensions := [] }

/-- A successful transport response. -/
def respOk : HttpResponse :=
  { StatusCode := 200, Status := "200 OK", Body := "{}" }

/-- A failing transport response. -/
def respServerError : HttpResponse :=
  { StatusCode := 500, Status := "500 Internal Server Error", Body := "oops" }

/-- A client with no client-level options. -/
def clientPlain : Client :=
  { url := "https://example.com/graphql", requestOptions := [] }

/-- A fully successful environment over `Nat` targets: every
collaborator succeeds and the decoded envelope is empty. -/
def envBase : DoEnv Nat :=
  { constructQuery := fun _ _ => "{x}"
    constructMutation := fun _ _ => "mutation {x}"
    encodeFail := fun _ => none
    newRequestFail := fun _ => none
    transport := fun _ => Except.ok respOk
    decodeEnvelope := fun _ => Except.ok { Data := none, Errors := [] }
    unmarshalGraphQL := fun _ v => (none, v) }

/-- Environment whose response has null `data` and one error. -/
def envNullDataErrors : DoEnv Nat :=
  { envBase with decodeEnvelope := fun _ => Except.ok { Data := none, Errors := [errBoom] } }

/-- Environment whose response has data and one error, and whose
materializer succeeds, bumping the target. -/
def envPartialData : DoEnv Nat :=
  { envBase with
      decodeEnvelope := fun _ => Except.ok { Data := some (Json.num 7), Errors := [errBoom] }
      unmarshalGraphQL := fun _ v => (none, v + 1) }

/-- Environment whose response has data and one error, and whose
materializer fails. -/
def envUnmarshalFail : DoEnv Nat :=
  { envBase with
      decodeEnvelope := fun _ => Except.ok { Data := some (Json.num 7), Errors := [errBoom] }
      unmarshalGraphQL := fun _ v => (some "bad shape", v + 1) }

/-- Environment whose transport answers with a 500 status. -/
def envServerError : DoEnv Nat :=
  { envBase with transport := fun _ => Except.ok respServerError }

/-- A request option that always fails. -/
def optDeny : RequestOption := fun _ => Except.error "denied"

/-! Helper lemmas shared by the claim theorems. -/

/-- If every collaborator up to envelope decoding succeeds, the call
reduces to `processEnvelope` on the decoded envelope, with the sole
transport call recorded. -/
theorem doOp_reaches_envelope {V : Type} (env : DoEnv V) (c : Client) (op : operationType)
    (v : V) (vars : Variables) (opts : List RequestOption)
    (req2 : Request) (resp : HttpResponse) (out : ResponseEnvelope)
    (henc : env.encodeFail (doPayload env op v vars) = none)
    (hnr : env.newRequestFail c.url = none)
    (hopt : applyOpts (c.requestOptions ++ opts) (doInitialRequest env c op v vars) = Except.ok req2)
    (ht : env.transport req2 = Except.ok resp)
    (hst : resp.StatusCode = 200)
    (hdec : env.decodeEnvelope resp.Body = Except.ok out) :
    Client.doOp env c op v vars opts =
      ⟨(processEnvelope env out v).1, (processEnvelope env out v).2,
       doPayload env op v vars, [req2]⟩ := by
  unfold Client.doOp
  simp only [henc, hnr, hopt, ht, hst, hdec]
  simp

/-- The option loop surfaces the error of the first failing option:
if every option in the prefix succeeds (yielding `r1`) and the next
option fails with `e`, the whole loop fails with `e`. -/
theorem applyOpts_first_failure (os1 os2 : List RequestOption) (o : RequestOption)
    (req r1 : Request) (e : String)
    (h1 : applyOpts os1 req = Except.ok r1) (hf : o r1 = Except.error e) :
    applyOpts (os1 ++ o :: os2) req = Except.error e := by
  induction os1 generalizing req with
  | nil =>
    simp only [applyOpts] at h1
    cases h1
    simp [applyOpts, hf]
  | cons a as ih =>
    simp only [applyOpts] at h1 ⊢
    cases ha : a req with
    | error e2 => rw [ha] at h1; cases h1
    | ok r2 =>
      rw [ha] at h1
      simpa using ih r2 h1

/-- If the transport answers with a non-200 status, the call fails
with the status error carrying the status text and raw body, the
target is untouched, and exactly one transport call was made. -/
theorem doOp_status_err {V : Type} (env : DoEnv V) (c : Client) (op : operationType)
    (v : V) (vars : Variables) (opts : List RequestOption)
    (req2 : Request) (resp : HttpResponse)
    (henc : env.encodeFail (doPayload env op v vars) = none)
    (hnr : env.newRequestFail c.url = none)
    (hopt : applyOpts (c.requestOptions ++ opts) (doInitialRequest env c op v vars) = Except.ok req2)
    (ht : env.transport req2 = Except.ok resp)
    (hst : resp.StatusCode ≠ 200) :
    Client.doOp env c op v vars opts =
      ⟨Except.error (DoError.statusErr resp.Status resp.Body), v,
       doPayload env op v vars, [req2]⟩ := by
  unfold Client.doOp
  simp only [henc, hnr, hopt, ht]
  simp [hst]

/-- The payload recorded by a call is always the `{query, variables}`
pair for that operation. -/
theorem doOp_payload_eq {V : Type} (env : DoEnv V) (c : Client) (op : operationType)
    (v : V) (vars : Variables) (opts : List RequestOption) :
    (Client.doOp env c op v vars opts).payload = doPayload env op v vars := by
  unfold Client.doOp
  repeat' split
  all_goals rfl

/-- An error coming out of the envelope-processing tail is either the
materialization error or the whole non-empty protocol-error slice. -/
theorem processEnvelope_error_kinds {V : Type} (env : DoEnv V) (out : ResponseEnvelope)
    (v : V) (d : DoError)
    (h : (processEnvelope env out v).1 = Except.error d) :
    (∃ e, d = DoError.unmarshalErr e) ∨
    (d = DoError.gqlErrors out.Errors ∧ out.Errors ≠ []) := by
  unfold processEnvelope at h
  rcases hD : out.Data with _ | rawData
  · rw [hD] at h
    simp only at h
    by_cases hL : out.Errors.length > 0
    · rw [if_pos hL] at h
      simp only [Prod.fst] at h
      cases h
      exact Or.inr ⟨rfl, List.length_pos.mp hL⟩
    · rw [if_neg hL] at h
      cases h
  · rw [hD] at h
    simp only at h
    rcases hU : env.unmarshalGraphQL rawData v with ⟨oe, v2⟩
    rw [hU] at h
    rcases oe with _ | e
    · simp only at h
      by_cases hL : out.Errors.length > 0
      · rw [if_pos hL] at h
        simp only [Prod.fst] at h
        cases h
        exact Or.inr ⟨rfl, List.length_pos.mp hL⟩
      · rw [if_neg hL] at h
        cases h
    · simp only [Prod.fst] at h
      cases h
      exact Or.inl ⟨e, rfl⟩

/-- Case analysis of a whole call: either it aborts before the
transport with a pre-materialization error and an untouched target,
or it aborts after exactly one transport call with a
pre-materialization error and an untouched target, or it reaches the
envelope-processing tail after exactly one transport call. -/
theorem doOp_shape {V : Type} (env : DoEnv V) (c : Client) (op : operationType)
    (v : V) (vars : Variables) (opts : List RequestOption) :
    (∃ d, d.preMaterialization = true ∧
      Client.doOp env c op v vars opts = ⟨Except.error d, v, doPayload env op v vars, []⟩)
    ∨ (∃ d req2, d.preMaterialization = true ∧
      Client.doOp env c op v vars opts = ⟨Except.error d, v, doPayload env op v vars, [req2]⟩)
    ∨ (∃ req2 out,
      Client.doOp env c op v vars opts =
        ⟨(processEnvelope env out v).1, (processEnvelope env out v).2,
         doPayload env op v vars, [req2]⟩) := by
  unfold Client.doOp
  rcases hE : env.encodeFail (doPayload env op v vars) with _ | e
  · rcases hN : env.newRequestFail c.url with _ | e
    · rcases hA : applyOpts (c.requestOptions ++ opts) (doInitialRequest env c op v vars) with e | req2
      · exact Or.inl ⟨DoError.optionErr ⟨e⟩, rfl, by simp [hE, hN, hA]⟩
      · rcases hT : env.transport req2 with e | resp
        · exact Or.inr (Or.inl ⟨DoError.transportErr e, req2, rfl, by simp [hE, hN, hA, hT]⟩)
        · by_cases hS : resp.StatusCode = 200
          · rcases hD : env.decodeEnvelope resp.Body with e | out
            · exact Or.inr (Or.inl ⟨DoError.envelopeDecodeErr e, req2, rfl,
                by simp [hE, hN, hA, hT, hS, hD]⟩)
            · exact Or.inr (Or.inr ⟨req2, out, by simp [hE, hN, hA, hT, hS, hD]⟩)
          · exact Or.inr (Or.inl ⟨DoError.statusErr resp.Status resp.Body, req2, rfl,
              by simp [hE, hN, hA, hT, hS]⟩)
    · exact Or.inl ⟨DoError.requestErr e, rfl, by simp [hE, hN]⟩
  · exact Or.inl ⟨DoError.encodeErr e, rfl, by simp [hE]⟩

/-! Claim theorems. -/

/-- C1: for every response whose envelope carries non-null `data` and
a non-empty `errors` array, and whose materialization succeeds, the
call writes the materialized value into the target and still returns
the GraphQL-errors failure — never success. -/
theorem doOp_partial_success_still_fails {V : Type} (env : DoEnv V) (c : Client)
    (op : operationType) (v v2 : V) (vars : Variables) (opts : List RequestOption)
    (req2 : Request) (resp : HttpResponse) (out : ResponseEnvelope) (rawd : Json)
    (henc : env.encodeFail (doPayload env op v vars) = none)
    (hnr : env.newRequestFail c.url = none)
    (hopt : applyOpts (c.requestOptions ++ opts) (doInitialRequest env c op v vars) = Except.ok req2)
    (ht : env.transport req2 = Except.ok resp)
    (hst : resp.StatusCode = 200)
    (hdec : env.decodeEnvelope resp.Body = Except.ok out)
    (hdata : out.Data = some rawd)
    (hunm : env.unmarshalGraphQL rawd v = (none, v2))
    (herrs : out.Errors ≠ []) :
    (Client.doOp env c op v vars opts).result = Except.error (DoError.gqlErrors out.Errors)
    ∧ (Client.doOp env c op v vars opts).target = v2
    ∧ (Client.doOp env c op v vars opts).result ≠ Except.ok () := by
  rw [doOp_reaches_envelope env c op v vars opts req2 resp out henc hnr hopt ht hst hdec]
  have hlen : out.Errors.length > 0 := List.length_pos.mpr herrs
  unfold processEnvelope
  rw [hdata]
  simp only
  rw [hunm]
  simp [hlen]

/-- C1 witness. -/
theorem doOp_partial_success_still_fails_witness :
    (Client.doOp envPartialData clientPlain operationType.queryOperation 0 [] []).result
      = Except.error (DoError.gqlErrors [errBoom])
    ∧ (Client.doOp envPartialData clientPlain operationType.queryOperation 0 [] []).target = 1 := by
  have h := doOp_partial_success_still_fails envPartialData clientPlain
    operationType.queryOperation 0 1 [] []
    (doInitialRequest envPartialData clientPlain operationType.queryOperation 0 [])
    respOk { Data := some (Json.num 7), Errors := [errBoom] } (Json.num 7)
    rfl rfl rfl rfl rfl rfl rfl rfl (by simp)
  exact ⟨h.1, h.2.1⟩

/-- C2: for every response whose envelope has null (or absent) `data`
and a non-empty `errors` array, the call returns the aggregated
protocol failure and leaves the target exactly as it was before the
call. -/
theorem doOp_null_data_errors_fails_target_unchanged {V : Type} (env : DoEnv V) (c : Client)
    (op : operationType) (v : V) (vars : Variables) (opts : List RequestOption)
    (req2 : Request) (resp : HttpResponse) (out : ResponseEnvelope)
    (henc : env.encodeFail (doPayload env op v vars) = none)
    (hnr : env.newRequestFail c.url = none)
    (hopt : applyOpts (c.requestOptions ++ opts) (doInitialRequest env c op v vars) = Except.ok req2)
    (ht : env.transport req2 = Except.ok resp)
    (hst : resp.StatusCode = 200)
    (hdec : env.decodeEnvelope resp.Body = Except.ok out)
    (hdata : out.Data = none)
    (herrs : out.Errors ≠ []) :
    (Client.doOp env c op v vars opts).result = Except.error (DoError.gqlErrors out.Errors)
    ∧ (Client.doOp env c op v vars opts).target = v := by
  rw [doOp_reaches_envelope env c op v vars opts req2 resp out henc hnr hopt ht hst hdec]
  have hlen : out.Errors.length > 0 := List.length_pos.mpr herrs
  unfold processEnvelope
  rw [hdata]
  simp [hlen]

/-- C2 witness. -/
theorem doOp_null_data_errors_witness :
    (Client.doOp envNullDataErrors clientPlain operationType.queryOperation 0 [] []).result
      = Except.error (DoError.gqlErrors [errBoom])
    ∧ (Client.doOp envNullDataErrors clientPlain operationType.queryOperation 0 [] []).target = 0 :=
  doOp_null_data_errors_fails_target_unchanged envNullDataErrors clientPlain
    operationType.queryOperation 0 [] []
    (doInitialRequest envNullDataErrors clientPlain operationType.queryOperation 0 [])
    respOk { Data := none, Errors := [errBoom] }
    rfl rfl rfl rfl rfl rfl rfl (by simp)

/-- C3: error aggregation yields no failure when the server-reported
`errors` sequence is empty, and otherwise the call's result is a
single failure wrapping the whole sequence whose primary message is
exactly the first error's message. -/
theorem doOp_error_aggregation {V : Type} (env : DoEnv V) (c : Client)
    (op : operationType) (v : V) (vars : Variables) (opts : List RequestOption)
    (req2 : Request) (resp : HttpResponse) (out : ResponseEnvelope)
    (henc : env.encodeFail (doPayload env op v vars) = none)
    (hnr : env.newRequestFail c.url = none)
    (hopt : applyOpts (c.requestOptions ++ opts) (doInitialRequest env c op v vars) = Except.ok req2)
    (ht : env.transport req2 = Except.ok resp)
    (hst : resp.StatusCode = 200)
    (hdec : env.decodeEnvelope resp.Body = Except.ok out)
    (hdata : out.Data = none) :
    ((Client.doOp env c op v vars opts).result = Except.ok () ↔ out.Errors = [])
    ∧ ∀ hne : out.Errors ≠ [],
        (Client.doOp env c op v vars opts).result = Except.error (DoError.gqlErrors out.Errors)
        ∧ GraphQLErrors.Error out.Errors = some ((out.Errors.head hne).Message) := by
  rw [doOp_reaches_envelope env c op v vars opts req2 resp out henc hnr hopt ht hst hdec]
  unfold processEnvelope
  rw [hdata]
  constructor
  · cases hE : out.Errors with
    | nil => simp [hE]
    | cons a l => simp [hE]
  · intro hne
    obtain ⟨a, l, hE⟩ := List.exists_cons_of_ne_nil hne
    constructor
    · simp [hE]
    · simp [hE, GraphQLErrors.Error]

/-- C3 witness. -/
theorem doOp_error_aggregation_witness :
    (Client.doOp envNullDataErrors clientPlain operationType.queryOperation 0 [] []).result
      = Except.error (DoError.gqlErrors [errBoom])
    ∧ GraphQLErrors.Error [errBoom] = some "boom" := by
  have h := doOp_error_aggregation envNullDataErrors clientPlain
    operationType.queryOperation 0 [] []
    (doInitialRequest envNullDataErrors clientPlain operationType.queryOperation 0 [])
    respOk { Data := none, Errors := [errBoom] }
    rfl rfl rfl rfl rfl rfl rfl
  have h2 := h.2 (by simp)
  exact ⟨h2.1, h2.2⟩

/-- C9: when `data` is non-null but fails to materialize and the
`errors` array is non-empty, the call returns exactly the
materialization error; the protocol errors are discarded, never
combined with it and never preferred to it. -/
theorem doOp_unmarshal_error_discards_protocol_errors {V : Type} (env : DoEnv V) (c : Client)
    (op : operationType) (v v2 : V) (vars : Variables) (opts : List RequestOption)
    (req2 : Request) (resp : HttpResponse) (out : ResponseEnvelope) (rawd : Json) (e : String)
    (henc : env.encodeFail (doPayload env op v vars) = none)
    (hnr : env.newRequestFail c.url = none)
    (hopt : applyOpts (c.requestOptions ++ opts) (doInitialRequest env c op v vars) = Except.ok req2)
    (ht : env.transport req2 = Except.ok resp)
    (hst : resp.StatusCode = 200)
    (hdec : env.decodeEnvelope resp.Body = Except.ok out)
    (hdata : out.Data = some rawd)
    (hunm : env.unmarshalGraphQL rawd v = (some e, v2))
    (herrs : out.Errors ≠ []) :
    (Client.doOp env c op v vars opts).result = Except.error (DoError.unmarshalErr e) := by
  rw [doOp_reaches_envelope env c op v vars opts req2 resp out henc hnr hopt ht hst hdec]
  unfold processEnvelope
  rw [hdata]
  simp only
  rw [hunm]

/-- C9 witness. -/
theorem doOp_unmarshal_error_witness :
    (Client.doOp envUnmarshalFail clientPlain operationType.queryOperation 0 [] []).result
      = Except.error (DoError.unmarshalErr "bad shape") :=
  doOp_unmarshal_error_discards_protocol_errors envUnmarshalFail clientPlain
    operationType.queryOperation 0 1 [] []
    (doInitialRequest envUnmarshalFail clientPlain operationType.queryOperation 0 [])
    respOk { Data := some (Json.num 7), Errors := [errBoom] } (Json.num 7) "bad shape"
    rfl rfl rfl rfl rfl rfl rfl rfl (by simp)

/-- C4: for every transport response with a non-200 status, the call
fails with the status error carrying the status text and the raw
response body, and the response envelope is never parsed — replacing
the envelope decoder does not change the call's outcome. -/
theorem doOp_non_success_status {V : Type} (env : DoEnv V) (c : Client) (op : operationType)
    (v : V) (vars : Variables) (opts : List RequestOption)
    (dec2 : String → Except String ResponseEnvelope)
    (req2 : Request) (resp : HttpResponse)
    (henc : env.encodeFail (doPayload env op v vars) = none)
    (hnr : env.newRequestFail c.url = none)
    (hopt : applyOpts (c.requestOptions ++ opts) (doInitialRequest env c op v vars) = Except.ok req2)
    (ht : env.transport req2 = Except.ok resp)
    (hst : resp.StatusCode ≠ 200) :
    (Client.doOp env c op v vars opts).result
      = Except.error (DoError.statusErr resp.Status resp.Body)
    ∧ Client.doOp { env with decodeEnvelope := dec2 } c op v vars opts
      = Client.doOp env c op v vars opts := by
  have hA := doOp_status_err env c op v vars opts req2 resp henc hnr hopt ht hst
  have hB := doOp_status_err { env with decodeEnvelope := dec2 } c op v vars opts req2 resp
    henc hnr hopt ht hst
  refine ⟨by rw [hA], ?_⟩
  rw [hA, hB]
  rfl

/-- C4 witness. -/
theorem doOp_non_success_status_witness :
    (Client.doOp envServerError clientPlain operationType.queryOperation 0 [] []).result
      = Except.error (DoError.statusErr "500 Internal Server Error" "oops")
    ∧ Client.doOp { envServerError with decodeEnvelope := fun _ => Except.error "never" }
        clientPlain operationType.queryOperation 0 [] []
      = Client.doOp envServerError clientPlain operationType.queryOperation 0 [] [] := by
  have h := doOp_non_success_status envServerError clientPlain operationType.queryOperation 0 [] []
    (fun _ => Except.error "never")
    (doInitialRequest envServerError clientPlain operationType.queryOperation 0 [])
    respServerError rfl rfl rfl rfl (by decide)
  exact ⟨h.1, h.2⟩

/-- C5: request options run in registration order, every client-level
option before every per-call option; the first failing option aborts
the call before the transport is invoked, and the call returns an
`OptionError` wrapping (and exposing via `Unwrap`) that option's
underlying error. -/
theorem doOp_option_failure {V : Type} (env : DoEnv V) (c : Client) (op : operationType)
    (v : V) (vars : Variables) (opts : List RequestOption)
    (os1 os2 : List RequestOption) (o : RequestOption) (r1 : Request) (e : String)
    (henc : env.encodeFail (doPayload env op v vars) = none)
    (hnr : env.newRequestFail c.url = none)
    (hsplit : c.requestOptions ++ opts = os1 ++ o :: os2)
    (h1 : applyOpts os1 (doInitialRequest env c op v vars) = Except.ok r1)
    (hf : o r1 = Except.error e) :
    (Client.doOp env c op v vars opts).result = Except.error (DoError.optionErr ⟨e⟩)
    ∧ (Client.doOp env c op v vars opts).transportCalls = []
    ∧ OptionError.Unwrap ⟨e⟩ = e := by
  have happ : applyOpts (c.requestOptions ++ opts) (doInitialRequest env c op v vars)
      = Except.error e := by
    rw [hsplit]
    exact applyOpts_first_failure os1 os2 o _ r1 e h1 hf
  unfold Client.doOp
  simp only [henc, hnr, happ]
  exact ⟨trivial, trivial, rfl⟩

/-- C5 witness. -/
theorem doOp_option_failure_witness :
    (Client.doOp envBase clientPlain operationType.queryOperation 0 [] [optDeny]).result
      = Except.error (DoError.optionErr ⟨"denied"⟩)
    ∧ (Client.doOp envBase clientPlain operationType.queryOperation 0 [] [optDeny]).transportCalls
      = []
    ∧ OptionError.Unwrap ⟨"denied"⟩ = "denied" :=
  doOp_option_failure envBase clientPlain operationType.queryOperation 0 [] [optDeny]
    [] [] optDeny (doInitialRequest envBase clientPlain operationType.queryOperation 0 []) "denied"
    rfl rfl rfl rfl rfl

/-- C6: the payload handed to the JSON encoder is always the
`{query, variables}` pair for the operation, and its wire encoding is
a JSON object whose `"query"` member is the compiled document string
and whose `"variables"` member equals the caller's bindings map,
omitted entirely when the map is empty. -/
theorem doOp_wire_payload {V : Type} (env : DoEnv V) (c : Client) (op : operationType)
    (v : V) (vars : Variables) (opts : List RequestOption) :
    (Client.doOp env c op v vars opts).payload
      = { Query := opQuery env op v vars, Variables := vars }
    ∧ Json.lookup (encodePayload ((Client.doOp env c op v vars opts).payload)) "query"
      = some (Json.str (opQuery env op v vars))
    ∧ Json.lookup (encodePayload ((Client.doOp env c op v vars opts).payload)) "variables"
      = (if vars.isEmpty then none else some (Json.obj vars)) := by
  have hp := doOp_payload_eq env c op v vars opts
  refine ⟨hp, ?_, ?_⟩
  · rw [hp]
    simp [encodePayload, Json.lookup, doPayload, List.find?]
  · rw [hp]
    cases vars with
    | nil => simp [encodePayload, Json.lookup, doPayload]
    | cons p ps => simp [encodePayload, Json.lookup, doPayload, List.find?]

/-- C7: the transport collaborator is invoked at most once per call;
no failure is ever followed by a second send. -/
theorem doOp_transport_at_most_once {V : Type} (env : DoEnv V) (c : Client) (op : operationType)
    (v : V) (vars : Variables) (opts : List RequestOption) :
    (Client.doOp env c op v vars opts).transportCalls.length ≤ 1 := by
  rcases doOp_shape env c op v vars opts with ⟨d, _, heq⟩ | ⟨d, req2, _, heq⟩ | ⟨req2, out, heq⟩ <;>
    rw [heq] <;> simp

/-- C8: every GraphQL-errors value the call returns through the error
result is non-empty, so its `Error()` method never indexes out of
bounds. -/
theorem doOp_gql_errors_nonempty {V : Type} (env : DoEnv V) (c : Client) (op : operationType)
    (v : V) (vars : Variables) (opts : List RequestOption) (errs : GraphQLErrors)
    (h : (Client.doOp env c op v vars opts).result = Except.error (DoError.gqlErrors errs)) :
    errs ≠ [] ∧ (GraphQLErrors.Error errs).isSome = true := by
  have hne : errs ≠ [] := by
    rcases doOp_shape env c op v vars opts with ⟨d, hpre, heq⟩ | ⟨d, req2, hpre, heq⟩ |
      ⟨req2, out, heq⟩
    · rw [heq] at h
      simp at h
      subst h
      simp [DoError.preMaterialization] at hpre
    · rw [heq] at h
      simp at h
      subst h
      simp [DoError.preMaterialization] at hpre
    · rw [heq] at h
      simp at h
      rcases processEnvelope_error_kinds env out v _ h with ⟨e, he⟩ | ⟨hdq, hne2⟩
      · simp at he
      · cases hdq
        exact hne2
  refine ⟨hne, ?_⟩
  obtain ⟨a, l, hE⟩ := List.exists_cons_of_ne_nil hne
  rw [hE]
  rfl

/-- C8 witness. -/
theorem doOp_gql_errors_nonempty_witness :
    (GraphQLErrors.Error [errBoom]).isSome = true :=
  (doOp_gql_errors_nonempty envNullDataErrors clientPlain operationType.queryOperation 0 [] []
    [errBoom] rfl).2

/-- C10: every failure that occurs before materialization begins —
encoding, request construction, a failing option, transport failure,
non-200 status, or envelope decode failure — leaves the target
exactly as it was before the call. -/
theorem doOp_pre_materialization_frame {V : Type} (env : DoEnv V) (c : Client)
    (op : operationType) (v : V) (vars : Variables) (opts : List RequestOption) (d : DoError)
    (h : (Client.doOp env c op v vars opts).result = Except.error d)
    (hd : d.preMaterialization = true) :
    (Client.doOp env c op v vars opts).target = v := by
  rcases doOp_shape env c op v vars opts with ⟨d0, hpre, heq⟩ | ⟨d0, req2, hpre, heq⟩ |
    ⟨req2, out, heq⟩
  · simp [heq]
  · simp [heq]
  · rw [heq] at h
    simp at h
    rcases processEnvelope_error_kinds env out v d h with ⟨e, he⟩ | ⟨hdq, _⟩
    · subst he
      simp [DoError.preMaterialization] at hd
    · subst hdq
      simp [DoError.preMaterialization] at hd

/-- C10 witness. -/
theorem doOp_pre_materialization_frame_witness :
    (Client.doOp envServerError clientPlain operationType.queryOperation 0 [] []).target = 0 :=
  doOp_pre_materialization_frame envServerError clientPlain operationType.queryOperation 0 [] []
    (DoError.statusErr "500 Internal Server Error" "oops") rfl rfl
